import Mathlib

/-!
Shallow embedding of `src/components/map.tsx` (SharedJourneys): an
interactive map widget with an in-memory pin store, a create modal and an
edit modal.

Modelling conventions:
* JavaScript numbers (coordinates) are modelled as rationals `ℚ`; the
  template-string interpolation of a number is modelled by `toString`.
* `Date.now()` is passed in explicitly as a `now : Nat` parameter.
* The asynchronous geocoding fetch is passed in as an explicit outcome
  `Except Unit (Option String)`: `Except.error ()` is a transport/HTTP
  level failure (the promise rejects), `Except.ok d` is a parsed JSON
  body whose `display_name` field is `d` (`none` when absent).
* Each React event handler becomes a pure transition on `MapState`, the
  record of all `useState` hooks of the component.  `addPin` additionally
  returns a `Bool` recording whether the geocoding request was issued.
-/

namespace SharedJourneys

/-- The closed category enumeration `PinCategory` of map.tsx. -/
inductive PinCategory where
  | restaurant
  | bar
  | beach
  | travel
  | activity
deriving DecidableEq, Repr

/-- The `Pin` interface of map.tsx.  `address?: string` becomes
`Option String`. -/
structure Pin where
  id : Nat
  lat : ℚ
  lng : ℚ
  title : String
  description : String
  category : PinCategory
  address : Option String
deriving DecidableEq, Repr

/-- Coordinates captured by a map click (`pendingPin`). -/
structure LatLng where
  lat : ℚ
  lng : ℚ
deriving DecidableEq, Repr

/-- Models JavaScript `String.prototype.split` with a one-character
separator, on the character list of the string.  Defined by structural
recursion (rather than via `String.splitOn`, whose well-founded recursion
does not evaluate inside proofs); it agrees with JS `split`: splitting the
empty string gives one empty part, adjacent separators give empty parts. -/
def jsSplit (sep : Char) : List Char → List (List Char)
  | [] => [[]]
  | c :: rest =>
    match jsSplit sep rest with
    | [] => [[]]
    | part :: parts =>
      if c = sep then [] :: part :: parts else (c :: part) :: parts

/-- Models JavaScript `String.prototype.trim` on a character list: strips
leading and trailing whitespace, keeps interior whitespace. -/
def trimChars (cs : List Char) : List Char :=
  ((cs.dropWhile Char.isWhitespace).reverse.dropWhile Char.isWhitespace).reverse

/-- Models JavaScript `String.prototype.trim` (`s.trim()`). -/
def jsTrim (s : String) : String :=
  String.mk (trimChars s.data)

/-- The Google Maps URL built inside `createAddressLink`:
`https://www.google.com/maps?q=${lat},${lng}`. -/
def googleMapsUrl (lat lng : ℚ) : String :=
  "https://www.google.com/maps?q=" ++ toString lat ++ "," ++ toString lng

/-- The truncated display text built inside `createAddressLink`:
split at commas, slice(0, 2), join by a space, trim — the first two
comma-separated parts, joined by a single space character, then trimmed
at both ends. -/
def shortAddress (address : String) : String :=
  jsTrim (String.mk (List.intercalate [' '] ((jsSplit ',' address.data).take 2)))

/-- `createAddressLink` of map.tsx: wraps the truncated address text
(`shortAddress`, the source's local `shortAddress` constant) in an anchor
pointing at the Google Maps URL for the original, untruncated coordinates
(`googleMapsUrl`, the source's local `googleMapsUrl` constant). -/
def createAddressLink (address : String) (lat lng : ℚ) : String :=
  "<a href=\"" ++ googleMapsUrl lat lng ++
    "\" target=\"_blank\" rel=\"noopener noreferrer\" style=\"color: #007bff; text-decoration: underline;\">"
    ++ shortAddress address ++ "</a>"

/-- `getAddress` of map.tsx, after the fetch has already succeeded and its
JSON body been parsed: `data.display_name` with the literal fallback
`Address not found` (a JS
falsy check: an absent field or an empty string both fall back), then
`createAddressLink`.  A rejected fetch never reaches this code; it is
modelled at the `addPin` call site. -/
def getAddress (displayName : Option String) (lat lng : ℚ) : String :=
  let address := match displayName with
    | none => "Address not found"
    | some s => if s = "" then "Address not found" else s
  createAddressLink address lat lng

/-- All `useState` hooks of the `Map` component. -/
structure MapState where
  pins : List Pin
  showModal : Bool
  pendingPin : Option LatLng
  pinTitle : String
  pinDescription : String
  pinCategory : PinCategory
  isLoadingAddress : Bool
  editingPin : Option Pin
  showEditModal : Bool
deriving DecidableEq, Repr

/-- `handleMapClick` of map.tsx. -/
def handleMapClick (s : MapState) (lat lng : ℚ) : MapState :=
  { s with pendingPin := some ⟨lat, lng⟩, showModal := true,
           pinTitle := "", pinDescription := "",
           pinCategory := PinCategory.restaurant }

/-- `addPin` of map.tsx.  The guard is `if (pendingPin && pinTitle.trim())`.
On a transport failure the `await getAddress(...)` re-throws: execution of
`addPin` stops right after `setIsLoadingAddress(true)`, so the returned
state keeps the loading flag set and the modal open.  The second component
records whether the geocoding request was issued. -/
def addPin (s : MapState) (now : Nat) (geo : Except Unit (Option String)) :
    MapState × Bool :=
  match s.pendingPin with
  | some pendingPin =>
    if jsTrim s.pinTitle ≠ "" then
      let s1 := { s with isLoadingAddress := true }
      match geo with
      | Except.error _ => (s1, true)
      | Except.ok displayName =>
        let address := getAddress displayName pendingPin.lat pendingPin.lng
        let newPin : Pin :=
          { id := now
            lat := pendingPin.lat
            lng := pendingPin.lng
            title := jsTrim s.pinTitle
            description := jsTrim s.pinDescription
            category := s.pinCategory
            address := some address }
        ({ s1 with pins := s1.pins ++ [newPin], showModal := false,
                   pendingPin := none, pinTitle := "", pinDescription := "",
                   pinCategory := PinCategory.restaurant,
                   isLoadingAddress := false }, true)
    else (s, false)
  | none => (s, false)

/-- `cancelPin` of map.tsx. -/
def cancelPin (s : MapState) : MapState :=
  { s with showModal := false, pendingPin := none, pinTitle := "",
           pinDescription := "", pinCategory := PinCategory.restaurant,
           isLoadingAddress := false }

/-- `deletePin` of map.tsx: `confirmed` is the result of the
`window.confirm` prompt. -/
def deletePin (s : MapState) (pinId : Nat) (confirmed : Bool) : MapState :=
  if confirmed then
    { s with pins := s.pins.filter (fun pin => pin.id != pinId) }
  else s

/-- `editPin` of map.tsx: snapshots the pin into `editingPin` and
pre-populates the form fields. -/
def editPin (s : MapState) (pin : Pin) : MapState :=
  { s with editingPin := some pin, pinTitle := pin.title,
           pinDescription := pin.description, pinCategory := pin.category,
           showEditModal := true }

/-- `updatePin` of map.tsx.  The guard is `if (editingPin && pinTitle.trim())`.
The updated pin is built by spreading `editingPin` and replacing only
title/description/category; no geocoding call is made (the source keeps the
same address).  `setIsLoadingAddress(true)` followed synchronously by
`setIsLoadingAddress(false)` nets to a cleared flag. -/
def updatePin (s : MapState) : MapState :=
  match s.editingPin with
  | some editingPin =>
    if jsTrim s.pinTitle ≠ "" then
      let updatedPin : Pin :=
        { editingPin with title := jsTrim s.pinTitle,
                          description := jsTrim s.pinDescription,
                          category := s.pinCategory }
      { s with pins := s.pins.map
                 (fun pin => if pin.id = editingPin.id then updatedPin else pin),
               showEditModal := false, editingPin := none, pinTitle := "",
               pinDescription := "", pinCategory := PinCategory.restaurant,
               isLoadingAddress := false }
    else s
  | none => s

/-- `cancelEdit` of map.tsx. -/
def cancelEdit (s : MapState) : MapState :=
  { s with showEditModal := false, editingPin := none, pinTitle := "",
           pinDescription := "", pinCategory := PinCategory.restaurant,
           isLoadingAddress := false }

/-! Concrete states used to exhibit the hypotheses of the theorems below
on explicit inputs. -/

/-- A pin as it could sit in the store. -/
def demoPin : Pin :=
  { id := 10, lat := 3, lng := 4, title := "Cafe", description := "nice",
    category := PinCategory.restaurant, address := some "addr" }

/-- A second pin with a distinct id. -/
def demoPin2 : Pin :=
  { id := 11, lat := 5, lng := 6, title := "Bar", description := "",
    category := PinCategory.bar, address := none }

/-- A state in the middle of the create flow: a pending pin is captured and
the form carries a title whose trimmed form is non-empty. -/
def demoCreateState : MapState :=
  { pins := [demoPin], showModal := true, pendingPin := some ⟨1, 2⟩,
    pinTitle := "Lunch", pinDescription := "soup", pinCategory := PinCategory.bar,
    isLoadingAddress := false, editingPin := none, showEditModal := false }

/-- A state whose form title is whitespace-only, with both a pending pin and
an editing target in place. -/
def demoBlankTitleState : MapState :=
  { pins := [demoPin, demoPin2], showModal := true, pendingPin := some ⟨1, 2⟩,
    pinTitle := "   ", pinDescription := "soup", pinCategory := PinCategory.bar,
    isLoadingAddress := false, editingPin := some demoPin, showEditModal := true }

/-- A state holding two pins and no open modal. -/
def demoStoreState : MapState :=
  { pins := [demoPin, demoPin2], showModal := false, pendingPin := none,
    pinTitle := "", pinDescription := "", pinCategory := PinCategory.restaurant,
    isLoadingAddress := false, editingPin := none, showEditModal := false }

/-- A state in the middle of the edit flow, targeting a pin that is not in
the store. -/
def demoGhostEditState : MapState :=
  { pins := [demoPin2], showModal := false, pendingPin := none,
    pinTitle := "New title", pinDescription := "d", pinCategory := PinCategory.beach,
    isLoadingAddress := false, editingPin := some demoPin, showEditModal := true }

/-- A state in the middle of the edit flow, targeting `demoPin` which is in
the store. -/
def demoEditState : MapState :=
  { pins := [demoPin, demoPin2], showModal := false, pendingPin := none,
    pinTitle := "New title ", pinDescription := "d", pinCategory := PinCategory.beach,
    isLoadingAddress := false, editingPin := some demoPin, showEditModal := true }

/-- Claim C1, as stated, is false: for the geocoding response with
`display_name = "123 Main St, Springfield, Some County, Country"` the
displayed text is not `"123 Main St, Springfield"` — `createAddressLink`
joins the first two comma-separated parts with a single space, not with a
comma and a space, so the comma is dropped and the space that followed it
survives. -/
theorem claim_C1_counterexample :
    shortAddress "123 Main St, Springfield, Some County, Country" ≠
      "123 Main St, Springfield" := by
  decide

/-- Claim C1 (amended): for every coordinate pair, the address built by the
create flow from the geocoding response whose `display_name` is
`"123 Main St, Springfield, Some County, Country"` has visible text exactly
`"123 Main St  Springfield"` — the first two comma-separated components
joined by a single space character (so a double space where the comma was),
wrapped in the Google Maps anchor for the original coordinates. -/
theorem claim_C1_amended_truncation (lat lng : ℚ) :
    getAddress (some "123 Main St, Springfield, Some County, Country") lat lng =
      "<a href=\"" ++ googleMapsUrl lat lng ++
        "\" target=\"_blank\" rel=\"noopener noreferrer\" style=\"color: #007bff; text-decoration: underline;\">"
        ++ "123 Main St  Springfield" ++ "</a>" := by
  have h : shortAddress "123 Main St, Springfield, Some County, Country" =
      "123 Main St  Springfield" := by decide
  show createAddressLink "123 Main St, Springfield, Some County, Country" lat lng = _
  rw [createAddressLink, h]

/-- Claim C8: for every coordinate pair, a geocoding response with no
`display_name` field does not fail the create flow: `getAddress` totally
produces an address whose visible text is exactly the literal fallback
`"Address not found"`. -/
theorem claim_C8_missing_display_name_fallback (lat lng : ℚ) :
    getAddress none lat lng =
      "<a href=\"" ++ googleMapsUrl lat lng ++
        "\" target=\"_blank\" rel=\"noopener noreferrer\" style=\"color: #007bff; text-decoration: underline;\">"
        ++ "Address not found" ++ "</a>" := by
  have h : shortAddress "Address not found" = "Address not found" := by decide
  show createAddressLink "Address not found" lat lng = _
  rw [createAddressLink, h]

/-- Claim C9: for every address string and every coordinate pair, the stored
address is an anchor whose href is exactly the Google Maps URL
`https://www.google.com/maps?q=<lat>,<lng>` built from the original,
untruncated coordinates, carrying `target="_blank"` and
`rel="noopener noreferrer"`, and whose visible text is the truncated
address. -/
theorem claim_C9_anchor_shape (address : String) (lat lng : ℚ) :
    createAddressLink address lat lng =
      "<a href=\"" ++ googleMapsUrl lat lng ++
        "\" target=\"_blank\" rel=\"noopener noreferrer\" style=\"color: #007bff; text-decoration: underline;\">"
        ++ shortAddress address ++ "</a>"
    ∧ googleMapsUrl lat lng =
        "https://www.google.com/maps?q=" ++ toString lat ++ "," ++ toString lng :=
  ⟨rfl, rfl⟩

/-- Unfolding lemma: `addPin` on a state whose guard passes and whose
geocoding fetch succeeds appends the freshly built pin and resets the
modal state. -/
lemma addPin_ok_eq (s : MapState) (pp : LatLng) (now : Nat) (displayName : Option String)
    (hpend : s.pendingPin = some pp) (htrim : jsTrim s.pinTitle ≠ "") :
    addPin s now (Except.ok displayName) =
      ({ s with
           pins := s.pins ++
             [{ id := now, lat := pp.lat, lng := pp.lng,
                title := jsTrim s.pinTitle,
                description := jsTrim s.pinDescription,
                category := s.pinCategory,
                address := some (getAddress displayName pp.lat pp.lng) }],
           showModal := false, pendingPin := none, pinTitle := "",
           pinDescription := "", pinCategory := PinCategory.restaurant,
           isLoadingAddress := false }, true) := by
  obtain ⟨pins, sm, pend, t, d, c, il, ep, sem⟩ := s
  simp only at hpend htrim
  subst hpend
  simp only [addPin, htrim]
  simp [htrim]

/-- Claim C2: for every state carrying a pending pin at a valid coordinate
pair and a non-empty trimmed title and a trimmed description, a create-flow
submit whose geocoding fetch succeeds appends exactly one new pin to the
store, and that pin carries the clicked coordinates, the given
title/description/category, and a non-`none` address. -/
theorem claim_C2_create_appends_one_pin
    (s : MapState) (lat lng : ℚ) (now : Nat) (displayName : Option String)
    (hpend : s.pendingPin = some ⟨lat, lng⟩)
    (hlat : -90 ≤ lat ∧ lat ≤ 90) (hlng : -180 ≤ lng ∧ lng ≤ 180)
    (htitle : jsTrim s.pinTitle = s.pinTitle) (hne : s.pinTitle ≠ "")
    (hdesc : jsTrim s.pinDescription = s.pinDescription) :
    ∃ p : Pin,
      (addPin s now (Except.ok displayName)).fst.pins = s.pins ++ [p] ∧
      p.lat = lat ∧ p.lng = lng ∧ p.title = s.pinTitle ∧
      p.description = s.pinDescription ∧ p.category = s.pinCategory ∧
      p.address.isSome = true := by
  have htrim : jsTrim s.pinTitle ≠ "" := by rw [htitle]; exact hne
  refine ⟨{ id := now, lat := lat, lng := lng, title := jsTrim s.pinTitle,
            description := jsTrim s.pinDescription, category := s.pinCategory,
            address := some (getAddress displayName lat lng) },
          ?_, rfl, rfl, htitle, hdesc, rfl, rfl⟩
  rw [addPin_ok_eq s ⟨lat, lng⟩ now displayName hpend htrim]

/-- Witness for claim C2 at a concrete state. -/
theorem claim_C2_witness :
    demoCreateState.pendingPin = some ⟨1, 2⟩ ∧
    (∃ p : Pin,
      (addPin demoCreateState 99 (Except.ok (some "A, B, C"))).fst.pins =
        demoCreateState.pins ++ [p] ∧
      p.lat = 1 ∧ p.lng = 2 ∧ p.title = demoCreateState.pinTitle ∧
      p.description = demoCreateState.pinDescription ∧
      p.category = demoCreateState.pinCategory ∧
      p.address.isSome = true) :=
  ⟨rfl,
   claim_C2_create_appends_one_pin demoCreateState 1 2 99 (some "A, B, C")
     rfl ⟨by norm_num, by norm_num⟩ ⟨by norm_num, by norm_num⟩
     (by decide) (by decide) (by decide)⟩

/-- Claim C3 is right about the intent but the code violates it: on a
geocoding transport failure the create-flow submit leaves the modal stuck —
the loading flag stays set, the modal stays open, the pending pin is kept
and no pin is stored.  The `await getAddress(...)` rejection propagates out
of `addPin` before any of the cleanup `setState` calls run. -/
theorem claim_C3_transport_failure_leaves_modal_stuck :
    (addPin demoCreateState 99 (Except.error ())).fst.isLoadingAddress = true ∧
    (addPin demoCreateState 99 (Except.error ())).fst.showModal = true ∧
    (addPin demoCreateState 99 (Except.error ())).fst.pendingPin = some ⟨1, 2⟩ ∧
    (addPin demoCreateState 99 (Except.error ())).fst.pins = demoCreateState.pins := by
  decide

/-- Claim C4: for every state whose form title trims to the empty string,
submitting the create flow or the edit flow leaves the whole state (in
particular the pin store) unchanged, and the create flow issues no
geocoding call (the returned flag is `false`; `updatePin` contains no
geocoding call at all). -/
theorem claim_C4_blank_title_never_mutates
    (s : MapState) (now : Nat) (geo : Except Unit (Option String))
    (h : jsTrim s.pinTitle = "") :
    addPin s now geo = (s, false) ∧ updatePin s = s := by
  constructor
  · obtain ⟨pins, sm, pend, t, d, c, il, ep, sem⟩ := s
    simp only at h
    cases pend <;> simp [addPin, h]
  · obtain ⟨pins, sm, pend, t, d, c, il, ep, sem⟩ := s
    simp only at h
    cases ep <;> simp [updatePin, h]

/-- Witness for claim C4 at a concrete state with a whitespace-only title. -/
theorem claim_C4_witness :
    jsTrim demoBlankTitleState.pinTitle = "" ∧
    (addPin demoBlankTitleState 99 (Except.ok (some "X")) =
        (demoBlankTitleState, false) ∧
      updatePin demoBlankTitleState = demoBlankTitleState) :=
  ⟨by decide,
   claim_C4_blank_title_never_mutates demoBlankTitleState 99
     (Except.ok (some "X")) (by decide)⟩

/-- Claim C5: for every pin `p` of the store, completing the edit flow that
targets it (snapshot via `editPin`, form fields set to `t`/`d`/`c`, then
`updatePin`) changes only title, description and category: every pin of the
resulting store carrying the id of `p` keeps the id, latitude, longitude and
address of `p`, and carries the submitted (trimmed) title, description and
the submitted category. -/
theorem claim_C5_edit_changes_only_text_fields
    (s : MapState) (p : Pin) (t d : String) (c : PinCategory)
    (hmem : p ∈ s.pins) (ht : jsTrim t ≠ "") :
    ∀ q ∈ (updatePin { editPin s p with
                       pinTitle := t, pinDescription := d,
                       pinCategory := c }).pins,
      q.id = p.id →
        q.lat = p.lat ∧ q.lng = p.lng ∧ q.address = p.address ∧
        q.title = jsTrim t ∧ q.description = jsTrim d ∧ q.category = c := by
  intro q hq hid
  simp only [editPin, updatePin, ht, ne_eq, not_false_eq_true, if_true,
    reduceIte] at hq
  rcases List.mem_map.mp hq with ⟨r, hr, rfl⟩
  by_cases hrp : r.id = p.id
  · simp [hrp]
  · simp only [if_neg hrp] at hid ⊢
    exact absurd hid hrp

/-- Witness for claim C5: the targeted pin after a concrete edit keeps its
location and address and takes the submitted fields. -/
theorem claim_C5_witness :
    demoPin ∈ demoEditState.pins ∧ jsTrim "New title " ≠ "" ∧
    ({ demoPin with
       title := "New title", description := "d",
       category := PinCategory.beach } : Pin).lat = demoPin.lat ∧
    ({ demoPin with
       title := "New title", description := "d",
       category := PinCategory.beach } : Pin).address = demoPin.address :=
  have h := claim_C5_edit_changes_only_text_fields demoEditState demoPin
    "New title " "d" PinCategory.beach (by decide) (by decide)
    { demoPin with
      title := "New title", description := "d",
      category := PinCategory.beach } (by decide) (by decide)
  ⟨by decide, by decide, h.1, h.2.2.1⟩

/-- List-level core of claim C6: filtering out one id from a store whose ids
are pairwise distinct removes exactly the pin carrying that id. -/
lemma filter_ne_id_of_nodup (l : List Pin) (pinId : Nat)
    (hnodup : (l.map Pin.id).Nodup) (p : Pin) (hp : p ∈ l) (hid : p.id = pinId) :
    ∃ l1 l2, l = l1 ++ p :: l2 ∧
      l.filter (fun pin => pin.id != pinId) = l1 ++ l2 := by
  obtain ⟨l1, l2, rfl⟩ := List.append_of_mem hp
  refine ⟨l1, l2, rfl, ?_⟩
  rw [List.map_append, List.map_cons, List.nodup_append] at hnodup
  obtain ⟨hn1, hn2, hdisj⟩ := hnodup
  have hpl2 : p.id ∉ l2.map Pin.id := (List.nodup_cons.mp hn2).1
  have hpl1 : p.id ∉ l1.map Pin.id := fun hmem => hdisj hmem (List.mem_cons_self _ _)
  have hf1 : l1.filter (fun pin => pin.id != pinId) = l1 := by
    refine List.filter_eq_self.mpr fun q hq => ?_
    simp only [bne_iff_ne, ne_eq, decide_eq_true_eq]
    intro hqe
    exact hpl1 (hid ▸ hqe ▸ List.mem_map_of_mem Pin.id hq)
  have hf2 : l2.filter (fun pin => pin.id != pinId) = l2 := by
    refine List.filter_eq_self.mpr fun q hq => ?_
    simp only [bne_iff_ne, ne_eq, decide_eq_true_eq]
    intro hqe
    exact hpl2 (hid ▸ hqe ▸ List.mem_map_of_mem Pin.id hq)
  rw [List.filter_append, hf1, List.filter_cons]
  simp [hid, hf2]

/-- Claim C6: in a store with pairwise-distinct pin ids, a confirmed
deletion of an id that is present removes exactly the pin with that id
(keeping every other pin, in order), and a confirmed deletion of an id
that is absent leaves the store unchanged. -/
theorem claim_C6_delete_exactly_one
    (s : MapState) (pinId : Nat) (hnodup : (s.pins.map Pin.id).Nodup) :
    (∀ p ∈ s.pins, p.id = pinId →
      ∃ l1 l2, s.pins = l1 ++ p :: l2 ∧
        (deletePin s pinId true).pins = l1 ++ l2) ∧
    ((∀ p ∈ s.pins, p.id ≠ pinId) → (deletePin s pinId true).pins = s.pins) := by
  constructor
  · intro p hp hid
    have h := filter_ne_id_of_nodup s.pins pinId hnodup p hp hid
    simpa [deletePin] using h
  · intro h
    show (s.pins.filter fun pin => pin.id != pinId) = s.pins
    refine List.filter_eq_self.mpr fun q hq => ?_
    simpa using h q hq

/-- Witness for claim C6 at a concrete two-pin store. -/
theorem claim_C6_witness :
    ((demoStoreState.pins.map Pin.id).Nodup) ∧
    ((∀ p ∈ demoStoreState.pins, p.id = 10 →
      ∃ l1 l2, demoStoreState.pins = l1 ++ p :: l2 ∧
        (deletePin demoStoreState 10 true).pins = l1 ++ l2) ∧
    ((∀ p ∈ demoStoreState.pins, p.id ≠ 10) →
      (deletePin demoStoreState 10 true).pins = demoStoreState.pins)) :=
  ⟨by decide, claim_C6_delete_exactly_one demoStoreState 10 (by decide)⟩

/-- Claim C7: submitting the edit flow while the targeted id is no longer in
the store is a silent no-op on the store — `pins.map` touches only matching
ids, and the transition is a total function, so nothing is thrown. -/
theorem claim_C7_update_unknown_id_noop
    (s : MapState) (ep : Pin) (he : s.editingPin = some ep)
    (habs : ∀ p ∈ s.pins, p.id ≠ ep.id) :
    (updatePin s).pins = s.pins := by
  obtain ⟨pins, sm, pend, t, d, c, il, epv, sem⟩ := s
  simp only at he habs
  subst he
  by_cases ht : jsTrim t ≠ ""
  · simp only [updatePin, ht, ne_eq, not_false_eq_true, if_true, reduceIte]
    calc (pins.map fun pin => if pin.id = ep.id then
            { ep with title := jsTrim t, description := jsTrim d, category := c }
          else pin)
        = pins.map fun pin => pin :=
          List.map_congr_left fun pin hmem => if_neg (habs pin hmem)
      _ = pins := List.map_id' pins
  · simp only [updatePin, ht, reduceIte, ite_false]

/-- Witness for claim C7: editing a pin that was deleted from the store in
the meantime leaves the store unchanged. -/
theorem claim_C7_witness :
    demoGhostEditState.editingPin = some demoPin ∧
    (updatePin demoGhostEditState).pins = demoGhostEditState.pins :=
  ⟨rfl, claim_C7_update_unknown_id_noop demoGhostEditState demoPin rfl (by decide)⟩

/-- Claim C10: a completed edit flow preserves the store's length and
ordering: position `i` of the resulting store holds the updated pin when the
pin previously at `i` carried the targeted id, and holds the previous pin,
unchanged, otherwise. -/
theorem claim_C10_update_preserves_positions
    (s : MapState) (ep : Pin) (he : s.editingPin = some ep)
    (ht : jsTrim s.pinTitle ≠ "") :
    (updatePin s).pins.length = s.pins.length ∧
    ∀ (i : Nat) (p0 : Pin), s.pins[i]? = some p0 →
      (updatePin s).pins[i]? =
        some (if p0.id = ep.id
              then { ep with title := jsTrim s.pinTitle,
                             description := jsTrim s.pinDescription,
                             category := s.pinCategory }
              else p0) := by
  obtain ⟨pins, sm, pend, t, d, c, il, epv, sem⟩ := s
  simp only at he ht ⊢
  subst he
  simp only [updatePin]
  rw [if_pos ht]
  refine ⟨List.length_map _ _, fun i p0 hp0 => ?_⟩
  simp only at hp0
  rw [List.getElem?_map, hp0, Option.map]

/-- Witness for claim C10 at a concrete two-pin store. -/
theorem claim_C10_witness :
    demoEditState.editingPin = some demoPin ∧ jsTrim demoEditState.pinTitle ≠ "" ∧
    (updatePin demoEditState).pins.length = demoEditState.pins.length :=
  ⟨rfl, by decide,
   (claim_C10_update_preserves_positions demoEditState demoPin rfl (by decide)).1⟩

end SharedJourneys
